import Mathlib

/-!
Verification of the product catalog service (`service/routes.py` and the
product model it drives).  The repository sources contain the route layer
(`src/service/routes.py`), its unit tests and the BDD step files; the model
module `service/models.py` (Product record, Category enumeration,
(de)serialization and persistence operations) is not among the sources, so
those parts are modelled from the specification, as marked on each such
definition. Everything here is executable so concrete requests can be
evaluated inside proofs.
-/

namespace ProductStore

/-! ## The Category enumeration

Modelled from the spec: `service/models.py` is not in the sources.  §3 of the
spec fixes the members CLOTHS, FOOD, TOOLS, AUTOMOTIVE and UNKNOWN. -/

inductive Category where
  | UNKNOWN
  | CLOTHS
  | FOOD
  | TOOLS
  | AUTOMOTIVE
  deriving DecidableEq, Repr

/-- The canonical enumeration-member name, as `Category(...).name` in Python. -/
def Category.name : Category → String
  | .UNKNOWN => "UNKNOWN"
  | .CLOTHS => "CLOTHS"
  | .FOOD => "FOOD"
  | .TOOLS => "TOOLS"
  | .AUTOMOTIVE => "AUTOMOTIVE"

/-- Attribute lookup of a member by exact name, as `getattr(Category, s)`:
`some` the member whose name is exactly `s`, `none` (an `AttributeError` in
Python) otherwise. -/
def Category.fromName? (s : String) : Option Category :=
  if s = "UNKNOWN" then some .UNKNOWN
  else if s = "CLOTHS" then some .CLOTHS
  else if s = "FOOD" then some .FOOD
  else if s = "TOOLS" then some .TOOLS
  else if s = "AUTOMOTIVE" then some .AUTOMOTIVE
  else none

theorem Category.fromName_name (c : Category) : Category.fromName? c.name = some c := by
  cases c <;> rfl

theorem Category.name_of_fromName {s : String} {c : Category}
    (h : Category.fromName? s = some c) : c.name = s := by
  unfold Category.fromName? at h
  split_ifs at h <;> (injection h with h; subst h; simp_all [Category.name])

/-! ## Exact decimals

The service stores prices in Python's `decimal.Decimal` (see
`src/service/routes.py` line 23 and the tests).  A decimal is an integer
coefficient together with a count of fractional digits, so `12.50` and `12.5`
are distinct representations of the same number.  Comparisons (`==` in
Python) are numeric, while printing and parsing preserve the scale. -/

structure PyDecimal where
  mantissa : Int
  scale : Nat
  deriving DecidableEq, Repr

/-- Numeric equality of decimals, as Python's `Decimal.__eq__`:
`12.50 == 12.5` even though the representations differ. -/
def PyDecimal.numEq (a b : PyDecimal) : Bool :=
  a.mantissa * (10 : Int) ^ b.scale == b.mantissa * (10 : Int) ^ a.scale

/-! ### Decimal digits -/

def digitChar : Nat → Char
  | 0 => '0'
  | 1 => '1'
  | 2 => '2'
  | 3 => '3'
  | 4 => '4'
  | 5 => '5'
  | 6 => '6'
  | 7 => '7'
  | 8 => '8'
  | 9 => '9'
  | _ => 'X'

def charDigit : Char → Nat
  | '1' => 1
  | '2' => 2
  | '3' => 3
  | '4' => 4
  | '5' => 5
  | '6' => 6
  | '7' => 7
  | '8' => 8
  | '9' => 9
  | _ => 0

def isDig (c : Char) : Bool :=
  match c with
  | '0' | '1' | '2' | '3' | '4' | '5' | '6' | '7' | '8' | '9' => true
  | _ => false

theorem charDigit_digitChar {d : Nat} (h : d < 10) : charDigit (digitChar d) = d := by
  interval_cases d <;> rfl

theorem isDig_digitChar {d : Nat} (h : d < 10) : isDig (digitChar d) = true := by
  interval_cases d <;> rfl

theorem digitChar_ne_dot {d : Nat} (h : d < 10) : (digitChar d != '.') = true := by
  interval_cases d <;> rfl

theorem digitChar_ne_minus {d : Nat} (h : d < 10) : digitChar d ≠ '-' := by
  interval_cases d <;> decide

theorem digitChar_ne_plus {d : Nat} (h : d < 10) : digitChar d ≠ '+' := by
  interval_cases d <;> decide

/-- The decimal digits of `n`, least significant first; `[]` for `0`.
The first argument is fuel making the recursion structural; `n` itself is
always enough fuel. -/
def natLEAux : Nat → Nat → List Nat
  | 0, _ => []
  | _ + 1, 0 => []
  | fuel + 1, n + 1 => (n + 1) % 10 :: natLEAux fuel ((n + 1) / 10)

def natLE (n : Nat) : List Nat := natLEAux n n

/-- The value of a least-significant-first digit list. -/
def ofLE : List Nat → Nat
  | [] => 0
  | d :: t => d + 10 * ofLE t

theorem ofLE_natLEAux : ∀ fuel n, n ≤ fuel → ofLE (natLEAux fuel n) = n := by
  intro fuel
  induction fuel with
  | zero =>
    intro n h
    interval_cases n
    rfl
  | succ f ih =>
    intro n h
    match n with
    | 0 => rfl
    | m + 1 =>
      have hdiv : (m + 1) / 10 < m + 1 := Nat.div_lt_self (Nat.succ_pos m) (by decide)
      have : ofLE (natLEAux f ((m + 1) / 10)) = (m + 1) / 10 := ih _ (by omega)
      simp only [natLEAux, ofLE, this]
      omega

theorem ofLE_natLE (n : Nat) : ofLE (natLE n) = n := ofLE_natLEAux n n (Nat.le_refl n)

theorem natLEAux_lt : ∀ fuel n, ∀ d ∈ natLEAux fuel n, d < 10 := by
  intro fuel
  induction fuel with
  | zero => intro n d hd; simp [natLEAux] at hd
  | succ f ih =>
    intro n d hd
    match n with
    | 0 => simp [natLEAux] at hd
    | m + 1 =>
      simp only [natLEAux, List.mem_cons] at hd
      rcases hd with h | h
      · omega
      · exact ih _ _ h

theorem natLE_lt (n : Nat) : ∀ d ∈ natLE n, d < 10 := natLEAux_lt n n

theorem natLE_ne_nil {n : Nat} (h : n ≠ 0) : natLE n ≠ [] := by
  match n, h with
  | m + 1, _ => simp [natLE, natLEAux]

/-- The decimal digits of `n`, most significant first (`[0]` for `0`). -/
def natBE (n : Nat) : List Nat :=
  if n = 0 then [0] else (natLE n).reverse

/-- The value of a most-significant-first digit list. -/
def valBE (l : List Nat) : Nat := l.foldl (fun a d => 10 * a + d) 0

theorem foldr_as_ofLE (l : List Nat) :
    l.foldr (fun d a => 10 * a + d) 0 = ofLE l := by
  induction l with
  | nil => rfl
  | cons d t ih => simp [List.foldr, ofLE, ih]; omega

theorem valBE_reverse (l : List Nat) : valBE l.reverse = ofLE l := by
  unfold valBE
  rw [List.foldl_reverse]
  exact foldr_as_ofLE l

theorem valBE_natBE (n : Nat) : valBE (natBE n) = n := by
  unfold natBE
  by_cases h : n = 0
  · simp [h, valBE]
  · simp only [h, if_false]
    rw [valBE_reverse, ofLE_natLE]

theorem natBE_lt (n : Nat) : ∀ d ∈ natBE n, d < 10 := by
  intro d hd
  unfold natBE at hd
  by_cases h : n = 0
  · simp [h] at hd; omega
  · simp only [h, if_false, List.mem_reverse] at hd
    exact natLE_lt n d hd

theorem natBE_length_pos (n : Nat) : 0 < (natBE n).length := by
  unfold natBE
  by_cases h : n = 0
  · simp [h]
  · simp only [h, if_false, List.length_reverse]
    cases hl : natLE n with
    | nil => exact absurd hl (natLE_ne_nil h)
    | cons a t => simp

theorem valBE_zero_pad (k : Nat) (l : List Nat) :
    valBE (List.replicate k 0 ++ l) = valBE l := by
  unfold valBE
  rw [List.foldl_append]
  have : (List.replicate k 0).foldl (fun a d => 10 * a + d) 0 = 0 := by
    induction k with
    | zero => rfl
    | succ m ih => simpa [List.replicate_succ] using ih
  rw [this]

/-- `m`'s digits, most significant first, left-padded with zeros to at least
`k + 1` digits (so a decimal with `k` fractional digits keeps at least one
integer digit, as Python prints `Decimal("0.005")`). -/
def padBE (m k : Nat) : List Nat :=
  List.replicate (k + 1 - (natBE m).length) 0 ++ natBE m

theorem valBE_padBE (m k : Nat) : valBE (padBE m k) = m := by
  unfold padBE
  rw [valBE_zero_pad, valBE_natBE]

theorem padBE_lt (m k : Nat) : ∀ d ∈ padBE m k, d < 10 := by
  intro d hd
  unfold padBE at hd
  rcases List.mem_append.mp hd with h | h
  · have := List.eq_of_mem_replicate h
    omega
  · exact natBE_lt m d h

theorem padBE_length (m k : Nat) : k + 1 ≤ (padBE m k).length := by
  unfold padBE
  rw [List.length_append, List.length_replicate]
  omega

/-! ### Printing a decimal

Models `str(Decimal(...))` for the plain (non-scientific) decimals this
service handles: the coefficient digits with a point before the last
`scale` digits, zero-padded so at least one integer digit remains, and a
leading minus sign for negative coefficients. -/

def decCharsAux (m k : Nat) : List Char :=
  let ds := (padBE m k).map digitChar
  if k = 0 then ds
  else ds.take (ds.length - k) ++ '.' :: ds.drop (ds.length - k)

def decChars (d : PyDecimal) : List Char := decCharsAux d.mantissa.natAbs d.scale

def printDec (d : PyDecimal) : String :=
  String.mk (if d.mantissa < 0 then '-' :: decChars d else decChars d)

/-! ### Parsing a decimal

Models `Decimal(str)` on plain decimal literals: an optional sign, then
digits with at most one point and at least one digit overall.  Exponent
forms, `NaN`/`Infinity` and underscore separators, which Python also
accepts, are not modelled; every string this service prints or that the
spec exercises is a plain literal. -/

def parseDecCore (cs : List Char) : Option PyDecimal :=
  let intp := cs.takeWhile (fun c => c != '.')
  match cs.dropWhile (fun c => c != '.') with
  | [] =>
    if !intp.isEmpty && intp.all isDig then
      some ⟨(valBE (intp.map charDigit) : Nat), 0⟩
    else none
  | _ :: frac =>
    if (!intp.isEmpty || !frac.isEmpty) && intp.all isDig && frac.all isDig then
      some ⟨(valBE ((intp ++ frac).map charDigit) : Nat), frac.length⟩
    else none

def parseDecimal? (s : String) : Option PyDecimal :=
  if s.data.head? = some '-' then
    (parseDecCore s.data.tail).map (fun d => ⟨-d.mantissa, d.scale⟩)
  else if s.data.head? = some '+' then parseDecCore s.data.tail
  else parseDecCore s.data

example : printDec ⟨1250, 2⟩ = "12.50" := by decide
example : printDec ⟨5, 3⟩ = "0.005" := by decide
example : printDec ⟨-1250, 2⟩ = "-12.50" := by decide
example : printDec ⟨0, 0⟩ = "0" := by decide
example : parseDecimal? "12.50" = some ⟨1250, 2⟩ := by decide
example : parseDecimal? "12.5" = some ⟨125, 1⟩ := by decide
example : parseDecimal? "10.00" = some ⟨1000, 2⟩ := by decide
example : parseDecimal? "abc" = none := by decide
example : parseDecimal? "" = none := by decide
example : parseDecimal? "-0.5" = some ⟨-5, 1⟩ := by decide
example : parseDecimal? "1.2.3" = none := by decide

/-! ### Printing followed by parsing is the identity -/

theorem data_mk (l : List Char) : (String.mk l).data = l := rfl

theorem digits_props {P : List Nat} (hP : ∀ x ∈ P, x < 10) :
    ∀ c ∈ P.map digitChar,
      isDig c = true ∧ (c != '.') = true ∧ c ≠ '-' ∧ c ≠ '+' := by
  intro c hc
  rcases List.mem_map.mp hc with ⟨x, hx, rfl⟩
  have hx10 := hP x hx
  exact ⟨isDig_digitChar hx10, digitChar_ne_dot hx10,
    digitChar_ne_minus hx10, digitChar_ne_plus hx10⟩

theorem isDig_ne_sign {c : Char} (h : isDig c = true) : c ≠ '-' ∧ c ≠ '+' := by
  constructor <;> rintro rfl <;> exact absurd h (by decide)

theorem takeWhile_of_no_dot {A : List Char} (h : ∀ c ∈ A, (c != '.') = true) :
    A.takeWhile (fun c => c != '.') = A ∧ A.dropWhile (fun c => c != '.') = [] := by
  induction A with
  | nil => exact ⟨rfl, rfl⟩
  | cons a t ih =>
    have ha := h a (List.mem_cons_self a t)
    have iht := ih (fun c hc => h c (List.mem_cons_of_mem a hc))
    refine ⟨?_, ?_⟩
    · simp [List.takeWhile_cons, ha, iht.1]
    · simp [List.dropWhile_cons, ha, iht.2]

theorem takeWhile_append_dot {A : List Char} (B : List Char)
    (h : ∀ c ∈ A, (c != '.') = true) :
    (A ++ '.' :: B).takeWhile (fun c => c != '.') = A ∧
    (A ++ '.' :: B).dropWhile (fun c => c != '.') = '.' :: B := by
  induction A with
  | nil => exact ⟨rfl, rfl⟩
  | cons a t ih =>
    have ha := h a (List.mem_cons_self a t)
    have iht := ih (fun c hc => h c (List.mem_cons_of_mem a hc))
    refine ⟨?_, ?_⟩
    · simp [List.takeWhile_cons, ha, iht.1]
    · simp [List.dropWhile_cons, ha, iht.2]

theorem map_charDigit_digitChar {l : List Nat} (h : ∀ x ∈ l, x < 10) :
    (l.map digitChar).map charDigit = l := by
  induction l with
  | nil => rfl
  | cons a t ih =>
    have ha := charDigit_digitChar (h a (List.mem_cons_self a t))
    have iht := ih (fun x hx => h x (List.mem_cons_of_mem a hx))
    simp [ha, iht]

theorem all_isDig_of_props {l : List Char}
    (h : ∀ c ∈ l, isDig c = true ∧ (c != '.') = true ∧ c ≠ '-' ∧ c ≠ '+') :
    l.all isDig = true := by
  rw [List.all_eq_true]
  intro c hc
  exact (h c hc).1

theorem parseDecCore_decCharsAux (m k : Nat) :
    parseDecCore (decCharsAux m k) = some ⟨(m : Int), k⟩ := by
  have hP10 : ∀ x ∈ padBE m k, x < 10 := padBE_lt m k
  have hprops := digits_props hP10
  have hlenP : k + 1 ≤ (padBE m k).length := padBE_length m k
  have hlds : ((padBE m k).map digitChar).length = (padBE m k).length :=
    List.length_map _ _
  by_cases hk : k = 0
  · subst hk
    have hds : decCharsAux m 0 = (padBE m 0).map digitChar := by
      simp [decCharsAux]
    rw [hds]
    have htd := takeWhile_of_no_dot (fun c hc => (hprops c hc).2.1)
    have hemp : ((padBE m 0).map digitChar).isEmpty = false := by
      cases hcs : (padBE m 0).map digitChar with
      | nil => rw [hcs] at hlds; simp at hlds; omega
      | cons c t => rfl
    unfold parseDecCore
    rw [htd.1, htd.2]
    simp only [hemp, Bool.not_false, Bool.true_and,
      all_isDig_of_props hprops, if_true]
    rw [map_charDigit_digitChar hP10, valBE_padBE]
  · set ds := (padBE m k).map digitChar with hdsdef
    set A := ds.take (ds.length - k) with hA
    set B := ds.drop (ds.length - k) with hB
    have hds : decCharsAux m k = A ++ '.' :: B := by
      simp only [decCharsAux, hk, if_false]
    have hAmem : ∀ c ∈ A, isDig c = true ∧ (c != '.') = true ∧ c ≠ '-' ∧ c ≠ '+' :=
      fun c hc => hprops c (List.take_subset _ _ hc)
    have hBmem : ∀ c ∈ B, isDig c = true ∧ (c != '.') = true ∧ c ≠ '-' ∧ c ≠ '+' :=
      fun c hc => hprops c (List.drop_subset _ _ hc)
    have htd := takeWhile_append_dot B (fun c hc => (hAmem c hc).2.1)
    have hAemp : A.isEmpty = false := by
      have hAlen : A.length = ds.length - k := by
        rw [hA, List.length_take]
        omega
      cases hcs : A with
      | nil => rw [hcs] at hAlen; simp at hAlen; omega
      | cons c t => rfl
    rw [hds]
    unfold parseDecCore
    rw [htd.1, htd.2]
    simp only [hAemp, Bool.not_false, Bool.true_or, Bool.true_and,
      all_isDig_of_props hAmem, all_isDig_of_props hBmem, Bool.and_true, if_true]
    have hAB : A ++ B = ds := List.take_append_drop _ _
    rw [hAB, hdsdef, map_charDigit_digitChar hP10, valBE_padBE]
    have hBlen : B.length = k := by
      rw [hB, List.length_drop]
      omega
    rw [hBlen]

theorem decCharsAux_head (m k : Nat) :
    ∃ c t, decCharsAux m k = c :: t ∧ isDig c = true := by
  have hP10 : ∀ x ∈ padBE m k, x < 10 := padBE_lt m k
  have hprops := digits_props hP10
  have hlenP : k + 1 ≤ (padBE m k).length := padBE_length m k
  have hlds : ((padBE m k).map digitChar).length = (padBE m k).length :=
    List.length_map _ _
  by_cases hk : k = 0
  · subst hk
    cases hcs : (padBE m 0).map digitChar with
    | nil => rw [hcs] at hlds; simp at hlds; omega
    | cons c t =>
      refine ⟨c, t, ?_, ?_⟩
      · simp [decCharsAux, hcs]
      · exact (hprops c (by rw [hcs]; exact List.mem_cons_self c t)).1
  · set ds := (padBE m k).map digitChar with hdsdef
    have hAlen : (ds.take (ds.length - k)).length = ds.length - k := by
      rw [List.length_take]
      omega
    cases hcs : ds.take (ds.length - k) with
    | nil => rw [hcs] at hAlen; simp at hAlen; omega
    | cons c t =>
      refine ⟨c, t ++ '.' :: ds.drop (ds.length - k), ?_, ?_⟩
      · simp only [decCharsAux, hk, if_false]
        rw [← hdsdef, hcs]
        rfl
      · have hcmem : c ∈ ds := List.take_subset _ _ (by rw [hcs]; exact List.mem_cons_self c t)
        exact (hprops c hcmem).1

/-- Printing any decimal and parsing the result restores the exact
representation: coefficient and scale, so `12.50` comes back as `12.50`,
not `12.5`. -/
theorem parse_printDec (d : PyDecimal) : parseDecimal? (printDec d) = some d := by
  obtain ⟨mi, k⟩ := d
  have hcore : parseDecCore (decChars ⟨mi, k⟩) = some ⟨(mi.natAbs : Int), k⟩ :=
    parseDecCore_decCharsAux mi.natAbs k
  obtain ⟨c, t, hct, hcdig⟩ := decCharsAux_head mi.natAbs k
  have hsign := isDig_ne_sign hcdig
  have hct' : decChars ⟨mi, k⟩ = c :: t := hct
  by_cases hneg : mi < 0
  · have hp : printDec ⟨mi, k⟩ = String.mk ('-' :: decChars ⟨mi, k⟩) := by
      simp [printDec, hneg]
    rw [hp]
    unfold parseDecimal?
    rw [data_mk]
    have hh : ('-' :: decChars ⟨mi, k⟩).head? = some '-' := rfl
    have htl : ('-' :: decChars ⟨mi, k⟩).tail = decChars ⟨mi, k⟩ := rfl
    rw [hh, if_pos rfl, htl, hcore]
    have hv : -((mi.natAbs : Int)) = mi := by omega
    show some (⟨-((mi.natAbs : Int)), k⟩ : PyDecimal) = some ⟨mi, k⟩
    rw [hv]
  · have hp : printDec ⟨mi, k⟩ = String.mk (decChars ⟨mi, k⟩) := by
      simp [printDec, hneg]
    rw [hp]
    unfold parseDecimal?
    rw [data_mk, hct']
    have hn1 : ¬ ((c :: t).head? = some '-') := by simp [hsign.1]
    have hn2 : ¬ ((c :: t).head? = some '+') := by simp [hsign.2]
    rw [if_neg hn1, if_neg hn2, ← hct', hcore]
    have : ((mi.natAbs : Int)) = mi := by omega
    rw [this]

/-! ## The Product record

Modelled from the spec: `service/models.py` is not in the sources.  §3 of the
spec gives the attributes; `id` is optional, absent before persistence. -/

structure Product where
  id : Option Nat
  name : String
  description : String
  price : PyDecimal
  available : Bool
  category : Category
  deriving DecidableEq, Repr

/-- JSON values as far as this service's payloads need them.  A JSON number
is kept as the exact decimal literal it was written as (the spec requires
numeric price input to convert to an exact decimal with no precision
loss). -/
inductive JsonVal where
  | str (s : String)
  | num (d : PyDecimal)
  | bool (b : Bool)
  | intv (n : Nat)
  | nullv
  deriving DecidableEq, Repr

/-- A string-keyed lookup in a JSON object, first binding wins. -/
def lookupKey (es : List (String × JsonVal)) (k : String) : Option JsonVal :=
  match es.find? (fun e => e.1 == k) with
  | some e => some e.2
  | none => none

/-- A request body: either a string-keyed mapping or something that is not a
mapping (null, a scalar, a list), which deserialization must reject with a
distinct message (spec §4.1). -/
inductive Body where
  | mapping (es : List (String × JsonVal))
  | notMapping
  deriving DecidableEq, Repr

/-- Modelled from the spec: serialization (`Product.serialize` in the missing
`service/models.py`).  §6: the serialized form adds the integer `id`,
normalizes `category` to its canonical enumeration name and `price` to a
decimal-formatted string. -/
def Product.serialize (p : Product) : List (String × JsonVal) :=
  [("id", match p.id with | some i => JsonVal.intv i | none => JsonVal.nullv),
   ("name", JsonVal.str p.name),
   ("description", JsonVal.str p.description),
   ("price", JsonVal.str (printDec p.price)),
   ("available", JsonVal.bool p.available),
   ("category", JsonVal.str p.category.name)]

/-- Conversion of the `price` entry to an exact decimal: a number is taken
exactly, a string is parsed (spec §4.1: "numeric price input (string or
number) is converted to an exact decimal; no precision loss"). -/
def priceOf : JsonVal → Option PyDecimal
  | JsonVal.num d => some d
  | JsonVal.str s => parseDecimal? s
  | _ => none

/-- Modelled from the spec: `Product.deserialize` of the missing
`service/models.py`.  §4.1: fails naming the missing field when any of the
five required fields is absent (checked here for all five, in the order the
unit tests exercise: name, description, price, available, category); fails
when `available` is not a genuine boolean; fails when `category` matches no
enumeration member name; fails with a distinct message on a non-mapping
body.  The error messages follow `src/tests/test_models.py` lines 252-294.
On success the five data fields are populated; `id` is not taken from the
input. -/
def deserializeMap (es : List (String × JsonVal)) : Except String Product :=
  match lookupKey es "name" with
    | none => Except.error "Invalid product: missing name"
    | some vname =>
    match lookupKey es "description" with
    | none => Except.error "Invalid product: missing description"
    | some vdesc =>
    match lookupKey es "price" with
    | none => Except.error "Invalid product: missing price"
    | some vprice =>
    match lookupKey es "available" with
    | none => Except.error "Invalid product: missing available"
    | some vavail =>
    match lookupKey es "category" with
    | none => Except.error "Invalid product: missing category"
    | some vcat =>
    match vname with
    | JsonVal.str nm =>
      match vdesc with
      | JsonVal.str ds =>
        match priceOf vprice with
        | none => Except.error "Invalid product: bad price"
        | some pr =>
        match vavail with
        | JsonVal.bool b =>
          match vcat with
          | JsonVal.str cs =>
            match Category.fromName? cs with
            | some cat => Except.ok ⟨none, nm, ds, pr, b, cat⟩
            | none => Except.error ("Invalid attribute: " ++ cs)
          | _ => Except.error "Invalid attribute: category"
        | _ => Except.error "Invalid type for boolean [available]"
      | _ => Except.error "Invalid product: bad description"
    | _ => Except.error "Invalid product: bad name"

def deserialize (data : Body) : Except String Product :=
  match data with
  | Body.notMapping => Except.error "Invalid product: body of request contained bad or no data"
  | Body.mapping es => deserializeMap es

/-! ## Persistence operations

Modelled from the spec: the store behind `service/models.py` is a list of
records in insertion order (spec §4.2: `all()` returns every record in
store order; `find` returns the match or an absence signal; the equality
lookups return the subset equal on the one field). -/

def Product.all (store : List Product) : List Product := store

def Product.find (store : List Product) (pid : Nat) : Option Product :=
  store.find? (fun p => p.id == some pid)

def find_by_name (store : List Product) (n : String) : List Product :=
  store.filter (fun p => p.name == n)

/-- Modelled from the spec: `update` (spec §4.2, §8) fails with a validation
error when `id` is unset, touching nothing; otherwise it persists the current
field values keyed by the existing `id`.  The pair returns the store after
the call and the validation error if one was raised. -/
def Product.update (p : Product) (store : List Product) :
    List Product × Option String :=
  match p.id with
  | none => (store, some "Update called with no id: cannot update a record with no identity")
  | some i => (store.map (fun q => if q.id == some i then p else q), none)

/-- Modelled from the spec: `delete` removes the row matching the record's
`id` (spec §4.2). -/
def Product.delete (p : Product) (store : List Product) : List Product :=
  store.filter (fun q => !(q.id == p.id))

/-! ## The HTTP layer (`src/service/routes.py`)

Query parameters are `none` when absent; Flask hands an empty string for a
parameter given with no value, and `routes.py` tests each one with Python
truthiness (`if name:`), so the empty string behaves like absence. -/

/-- Python truthiness of an optional string: the value when present and
non-empty. -/
def truthyStr : Option String → Option String
  | some s => if s = "" then none else some s
  | none => none

/-- Python `str.upper()` (ASCII range, which covers every category name). -/
def pyUpper (s : String) : String := String.mk (s.data.map Char.toUpper)

/-- Python `str.lower()` (ASCII range). -/
def pyLower (s : String) : String := String.mk (s.data.map Char.toLower)

/-- The text `str(e)` of the `InvalidOperation` raised by `Decimal` on a
malformed literal, interpolated into the 400 message by `routes.py` line
139. -/
def convErrMsg : String := "[<class decimal.ConversionSyntax>]"

structure ListQuery where
  name : Option String
  category : Option String
  available : Option String
  price : Option String
  deriving Repr

/-- `routes.py` lines 105-114: the working set starts as `Product.all()`
and a truthy `name` parameter replaces it by the `find_by_name` result. -/
def applyName (store : List Product) (qn : Option String) : List Product :=
  match truthyStr qn with
  | some n => find_by_name store n
  | none => Product.all store

/-- `routes.py` lines 117-124: a truthy `category` parameter is uppercased
and looked up with `getattr(Category, ...)`; on success the working set is
filtered by enum equality, on `AttributeError` the request aborts 400. -/
def applyCategory (l : List Product) (qc : Option String) :
    Except String (List Product) :=
  match truthyStr qc with
  | some c =>
    match Category.fromName? (pyUpper c) with
    | some ce => Except.ok (l.filter (fun p => p.category == ce))
    | none => Except.error ("Invalid category: " ++ c)
  | none => Except.ok l

/-- `routes.py` lines 126-130: a truthy `available` parameter filters the
working set by `available.lower() == "true"`. -/
def applyAvailable (l : List Product) (qa : Option String) : List Product :=
  match truthyStr qa with
  | some a => l.filter (fun p => p.available == (pyLower a == "true"))
  | none => l

/-- `routes.py` lines 132-139: a truthy `price` parameter is parsed with
`Decimal(price)`; on success the working set is filtered by decimal
equality, on failure the request aborts 400 with the offending value and
the exception text. -/
def applyPrice (l : List Product) (qp : Option String) :
    Except String (List Product) :=
  match truthyStr qp with
  | some pr =>
    match parseDecimal? pr with
    | some pd => Except.ok (l.filter (fun p => p.price.numEq pd))
    | none => Except.error ("Invalid price format: " ++ pr ++ " - " ++ convErrMsg)
  | none => Except.ok l

/-- `list_products`, `src/service/routes.py` lines 97-143: the four filter
blocks run in source order — name, category, available, price — each over
the working set the previous one produced.  `Except.error` is the 400 abort
with its message; the serialization of the surviving records happens at
line 141 and is kept separate here. -/
def list_products (store : List Product) (q : ListQuery) :
    Except String (List Product) :=
  match applyCategory (applyName store q.name) q.category with
  | Except.error e => Except.error e
  | Except.ok l2 => applyPrice (applyAvailable l2 q.available) q.price

theorem truthyStr_some {s : String} (h : s ≠ "") : truthyStr (some s) = some s := by
  simp [truthyStr, h]

theorem applyName_some {store : List Product} {qn : Option String} {n : String}
    (h : truthyStr qn = some n) : applyName store qn = find_by_name store n := by
  unfold applyName
  rw [h]

theorem applyCategory_skip {l : List Product} {qc : Option String}
    (h : truthyStr qc = none) : applyCategory l qc = Except.ok l := by
  unfold applyCategory
  rw [h]

theorem applyCategory_ok {l : List Product} {qc : Option String} {c : String}
    {ce : Category} (h : truthyStr qc = some c)
    (hce : Category.fromName? (pyUpper c) = some ce) :
    applyCategory l qc = Except.ok (l.filter (fun p => p.category == ce)) := by
  unfold applyCategory
  simp only [h, hce]

theorem applyCategory_err {l : List Product} {qc : Option String} {c : String}
    (h : truthyStr qc = some c) (hce : Category.fromName? (pyUpper c) = none) :
    applyCategory l qc = Except.error ("Invalid category: " ++ c) := by
  unfold applyCategory
  simp only [h, hce]

theorem applyAvailable_some {l : List Product} {qa : Option String} {a : String}
    (h : truthyStr qa = some a) :
    applyAvailable l qa = l.filter (fun p => p.available == (pyLower a == "true")) := by
  unfold applyAvailable
  rw [h]

theorem applyPrice_skip {l : List Product} {qp : Option String}
    (h : truthyStr qp = none) : applyPrice l qp = Except.ok l := by
  unfold applyPrice
  rw [h]

theorem applyPrice_ok {l : List Product} {qp : Option String} {pr : String}
    {pd : PyDecimal} (h : truthyStr qp = some pr)
    (hp : parseDecimal? pr = some pd) :
    applyPrice l qp = Except.ok (l.filter (fun p => p.price.numEq pd)) := by
  unfold applyPrice
  simp only [h, hp]

theorem applyPrice_err {l : List Product} {qp : Option String} {pr : String}
    (h : truthyStr qp = some pr) (hp : parseDecimal? pr = none) :
    applyPrice l qp =
      Except.error ("Invalid price format: " ++ pr ++ " - " ++ convErrMsg) := by
  unfold applyPrice
  simp only [h, hp]

theorem list_products_ok (store : List Product) (q : ListQuery)
    {l2 : List Product}
    (h : applyCategory (applyName store q.name) q.category = Except.ok l2) :
    list_products store q = applyPrice (applyAvailable l2 q.available) q.price := by
  unfold list_products
  rw [h]

theorem list_products_err (store : List Product) (q : ListQuery) {e : String}
    (h : applyCategory (applyName store q.name) q.category = Except.error e) :
    list_products store q = Except.error e := by
  unfold list_products
  rw [h]

/-- `check_content_type`, `src/service/routes.py` lines 47-63: 415 when the
Content-Type header is absent or differs from the expected type; `none`
means the check passed. -/
def check_content_type (hdr : Option String) (ct : String) :
    Option (Nat × String) :=
  match hdr with
  | none => some (415, "Content-Type must be " ++ ct)
  | some h => if h = ct then none else some (415, "Content-Type must be " ++ ct)

structure HttpResp where
  status : Nat
  payload : Option Product
  msg : String
  deriving Repr

/-- The next auto-incremented identity.  Modelled from the spec: the store,
not the caller, controls identity (§4.2). -/
def nextId (store : List Product) : Nat :=
  (store.map (fun p => p.id.getD 0)).foldr max 0 + 1

/-- `create_products`, `src/service/routes.py` lines 69-90: Content-Type
check, then deserialize and insert.  A `DataValidationError` surfaces as 400
(modelled from the spec §7: the error handler module is not in the
sources). -/
def create_products (store : List Product) (hdr : Option String) (body : Body) :
    List Product × HttpResp :=
  match check_content_type hdr "application/json" with
  | some (st, m) => (store, ⟨st, none, m⟩)
  | none =>
    match deserialize body with
    | Except.error m => (store, ⟨400, none, m⟩)
    | Except.ok p =>
      let p := { p with id := some (nextId store) }
      (store ++ [p], ⟨201, some p, ""⟩)

/-- `update_products`, `src/service/routes.py` lines 168-188: Content-Type
check first, then the existence lookup (404), then deserialize (400 via the
spec §7 handler), the path id is forced, and the record is persisted. -/
def update_products (store : List Product) (pid : Nat) (hdr : Option String)
    (body : Body) : List Product × HttpResp :=
  match check_content_type hdr "application/json" with
  | some (st, m) => (store, ⟨st, none, m⟩)
  | none =>
    match Product.find store pid with
    | none => (store, ⟨404, none, "Product with id " ++ toString pid ++ " was not found."⟩)
    | some _ =>
      match deserialize body with
      | Except.error m => (store, ⟨400, none, m⟩)
      | Except.ok p =>
        let p := { p with id := some pid }
        match p.update store with
        | (store2, none) => (store2, ⟨200, some p, ""⟩)
        | (store2, some m) => (store2, ⟨400, none, m⟩)

/-- `delete_products`, `src/service/routes.py` lines 195-207: look the id
up, delete the record when found, and in every case answer 204 with an
empty body. -/
def delete_products (store : List Product) (pid : Nat) :
    List Product × Nat × String :=
  match Product.find store pid with
  | some p => (p.delete store, 204, "")
  | none => (store, 204, "")

/-! ## Concrete fixtures used by the witnesses and counterexamples -/

def pShirt : Product := ⟨some 1, "Shirt", "", ⟨1, 0⟩, true, Category.CLOTHS⟩

def pPants : Product := ⟨some 2, "Pants", "", ⟨1, 0⟩, true, Category.CLOTHS⟩

def pShirtFood : Product := ⟨some 3, "Shirt", "", ⟨1, 0⟩, true, Category.FOOD⟩

def pSock : Product := ⟨some 4, "Sock", "", ⟨1, 0⟩, false, Category.CLOTHS⟩

def pTen : Product := ⟨some 5, "Hat", "", ⟨1000, 2⟩, true, Category.CLOTHS⟩

/-- The three stored products of the spec's filter-composition example. -/
def exampleStore : List Product := [pShirt, pPants, pShirtFood]

example : list_products exampleStore ⟨some "Shirt", some "CLOTHS", none, none⟩ =
    Except.ok [pShirt] := rfl

example : list_products exampleStore ⟨none, none, none, none⟩ =
    Except.ok exampleStore := rfl

/-! ## The claims -/

/-- C9: DELETE /products/{id} answers 204 with an empty body for every store
and id — present, absent, or already deleted — so deleting twice, or deleting
a non-existent id, never produces an error response. -/
theorem c9_delete_idempotent (store : List Product) (pid : Nat) :
    (delete_products store pid).2 = (204, "") ∧
    (delete_products (delete_products store pid).1 pid).2 = (204, "") := by
  have key : ∀ (s : List Product) (i : Nat), (delete_products s i).2 = (204, "") := by
    intro s i
    unfold delete_products
    cases Product.find s i <;> rfl
  exact ⟨key store pid, key _ pid⟩

/-- C10: on PUT /products/{id} the Content-Type check precedes the existence
lookup: a request whose Content-Type header is absent or not exactly
`application/json` is answered 415 for every store, id and body — in
particular it is never answered 404, even when no product with that id
exists. -/
theorem c10_content_type_before_lookup (store : List Product) (pid : Nat)
    (hdr : Option String) (body : Body)
    (h : hdr = none ∨ ∀ s, hdr = some s → s ≠ "application/json") :
    (update_products store pid hdr body).2.status = 415 ∧
    (update_products store pid hdr body).2.status ≠ 404 := by
  have h415 : (update_products store pid hdr body).2.status = 415 := by
    cases hdr with
    | none => rfl
    | some s =>
      have hs : s ≠ "application/json" := by
        rcases h with h | h
        · exact absurd h (by simp)
        · exact h s rfl
      simp [update_products, check_content_type, hs]
  exact ⟨h415, by rw [h415]; decide⟩

/-- C10 witness: with no Content-Type header, updating an id that does not
exist in an empty store still answers 415, not 404. -/
theorem c10_witness :
    (update_products [] 0 none Body.notMapping).2.status = 415 :=
  (c10_content_type_before_lookup [] 0 none Body.notMapping (Or.inl rfl)).1

/-- C8: update() on a record with unset id fails with a validation error and
returns the store untouched; with the id set it persists the current field
values keyed by that id. -/
theorem c8_update_requires_id (p : Product) (store : List Product) :
    (p.id = none →
      p.update store =
        (store, some "Update called with no id: cannot update a record with no identity")) ∧
    (∀ i, p.id = some i →
      p.update store = (store.map (fun q => if q.id == some i then p else q), none)) := by
  constructor
  · intro h
    simp [Product.update, h]
  · intro i h
    simp [Product.update, h]

/-- C8 witness: a concrete record without id is rejected and the store is
unchanged; the same record with id 1 replaces the stored record 1. -/
theorem c8_witness :
    Product.update ⟨none, "X", "", ⟨1, 0⟩, true, Category.UNKNOWN⟩ [pShirt] =
      ([pShirt], some "Update called with no id: cannot update a record with no identity") :=
  (c8_update_requires_id ⟨none, "X", "", ⟨1, 0⟩, true, Category.UNKNOWN⟩ [pShirt]).1 rfl

/-- C3 counterexample: the request `GET /products?category=` carries a
category parameter whose value, the empty string, is not a recognized
enumeration member name, yet `routes.py` line 117 (`if category:`) skips the
filter, so the response is 200 with the whole store — not the HTTP 400 the
claim requires for every unrecognized value. -/
theorem c3_counterexample :
    list_products [pShirt] ⟨none, some "", none, none⟩ = Except.ok [pShirt] ∧
    Category.fromName? (pyUpper "") = none :=
  ⟨rfl, rfl⟩

/-- C3 (amended to non-empty parameter values): a GET /products request
carrying a non-empty category parameter has the value uppercase-normalized
and looked up in the Category enumeration; when the lookup fails the
response is HTTP 400 naming the value — never the empty result list. -/
theorem c3_bad_category_400 (store : List Product)
    (qn qa qp : Option String) (c : String)
    (hc : c ≠ "") (hcat : Category.fromName? (pyUpper c) = none) :
    list_products store ⟨qn, some c, qa, qp⟩ =
      Except.error ("Invalid category: " ++ c) :=
  list_products_err store ⟨qn, some c, qa, qp⟩ (applyCategory_err (truthyStr_some hc) hcat)

/-- C3 witness: the unrecognized category `BAD` is answered with the 400
message, not an empty list. -/
theorem c3_witness :
    list_products [pShirt] ⟨none, some "BAD", none, none⟩ =
      Except.error ("Invalid category: " ++ "BAD") :=
  c3_bad_category_400 [pShirt] none none none "BAD" (by decide) rfl

/-- C4 counterexample: the request `GET /products?price=` carries a price
parameter whose value, the empty string, is malformed (`Decimal("")`
raises), yet `routes.py` line 132 (`if price:`) skips the filter and the
response is 200 with the whole store — not the HTTP 400 the claim requires
for every malformed value. -/
theorem c4_counterexample :
    list_products [pShirt] ⟨none, none, none, some ""⟩ = Except.ok [pShirt] ∧
    parseDecimal? "" = none :=
  ⟨rfl, rfl⟩

/-- C4 (amended to non-empty parameter values): a non-empty malformed price
value is answered HTTP 400 with a message carrying the offending value and
the parse failure (provided the earlier category filter did not itself
abort); a non-empty well-formed price value is parsed into the exact decimal
type and the records are matched by decimal equality. -/
theorem c4_price_filter :
    (∀ (store : List Product) (qn qa : Option String) (qc : Option String) (pr : String),
      pr ≠ "" → parseDecimal? pr = none →
      (truthyStr qc = none ∨
        ∃ c ce, truthyStr qc = some c ∧ Category.fromName? (pyUpper c) = some ce) →
      list_products store ⟨qn, qc, qa, some pr⟩ =
        Except.error ("Invalid price format: " ++ pr ++ " - " ++ convErrMsg)) ∧
    (∀ (store : List Product) (pr : String) (d : PyDecimal),
      pr ≠ "" → parseDecimal? pr = some d →
      list_products store ⟨none, none, none, some pr⟩ =
        Except.ok (store.filter (fun p => p.price.numEq d))) := by
  constructor
  · intro store qn qa qc pr hpr hparse hqc
    rcases hqc with hqc | ⟨c, ce, hqc, hce⟩
    · rw [list_products_ok store ⟨qn, qc, qa, some pr⟩ (applyCategory_skip hqc)]
      exact applyPrice_err (truthyStr_some hpr) hparse
    · rw [list_products_ok store ⟨qn, qc, qa, some pr⟩ (applyCategory_ok hqc hce)]
      exact applyPrice_err (truthyStr_some hpr) hparse
  · intro store pr d hpr hparse
    rw [list_products_ok store ⟨none, none, none, some pr⟩ (applyCategory_skip rfl)]
    exact applyPrice_ok (truthyStr_some hpr) hparse

/-- C4 witness: `price=abc` is answered with the 400 message carrying the
value and the failure; `price=10.00` parses to the exact decimal `10.00` and
matches the record stored with that decimal. -/
theorem c4_witness :
    list_products [pTen] ⟨none, none, none, some "abc"⟩ =
      Except.error ("Invalid price format: " ++ "abc" ++ " - " ++ convErrMsg) ∧
    list_products [pTen] ⟨none, none, none, some "10.00"⟩ =
      Except.ok ([pTen].filter (fun p => p.price.numEq ⟨1000, 2⟩)) :=
  ⟨c4_price_filter.1 [pTen] none none none "abc" (by decide) rfl (Or.inl rfl),
   c4_price_filter.2 [pTen] "10.00" ⟨1000, 2⟩ (by decide) rfl⟩

/-- C5 counterexample: the request `GET /products?available=` carries an
available parameter; its value, the empty string, is not the literal
`"true"`, so by the claim the filter value is false and only unavailable
products should pass — yet `routes.py` line 126 (`if available:`) skips the
filter and the available product `pShirt` is returned. -/
theorem c5_counterexample :
    list_products [pShirt] ⟨none, none, some "", none⟩ = Except.ok [pShirt] ∧
    pShirt.available = true ∧ (pyLower "" == "true") = false :=
  ⟨rfl, rfl, rfl⟩

/-- C5 (amended to non-empty parameter values): with a non-empty available
parameter the working set is filtered by the boolean
`available.lower() == "true"` — true exactly for the case-insensitive
literal `true`, false for every other non-empty value — and no value of the
parameter, empty included, ever causes the request to fail. -/
theorem c5_available_filter :
    (∀ (store : List Product) (a : String), a ≠ "" →
      list_products store ⟨none, none, some a, none⟩ =
        Except.ok (store.filter (fun p => p.available == (pyLower a == "true")))) ∧
    (∀ (store : List Product) (a : String),
      ∃ l, list_products store ⟨none, none, some a, none⟩ = Except.ok l) := by
  have key : ∀ (store : List Product) (a : String), a ≠ "" →
      list_products store ⟨none, none, some a, none⟩ =
        Except.ok (store.filter (fun p => p.available == (pyLower a == "true"))) := by
    intro store a ha
    rw [list_products_ok store ⟨none, none, some a, none⟩ (applyCategory_skip rfl),
      applyAvailable_some (truthyStr_some ha)]
    exact applyPrice_skip rfl
  constructor
  · exact key
  · intro store a
    by_cases ha : a = ""
    · exact ⟨store, by subst ha; rfl⟩
    · exact ⟨store.filter (fun p => p.available == (pyLower a == "true")), key store a ha⟩

/-- C5 witness: `available=TRUE` filters case-insensitively to the available
records, and `available=maybe` filters to the unavailable ones rather than
failing. -/
theorem c5_witness :
    list_products [pShirt, pSock] ⟨none, none, some "TRUE", none⟩ =
      Except.ok ([pShirt, pSock].filter (fun p => p.available == (pyLower "TRUE" == "true"))) ∧
    list_products [pShirt, pSock] ⟨none, none, some "maybe", none⟩ =
      Except.ok ([pShirt, pSock].filter (fun p => p.available == (pyLower "maybe" == "true"))) :=
  ⟨c5_available_filter.1 [pShirt, pSock] "TRUE" (by decide),
   c5_available_filter.1 [pShirt, pSock] "maybe" (by decide)⟩

/-- C1 counterexample: the request `GET /products?name=` carries a name
parameter, so by the claim the base set should be replaced by the lookup
`find_by_name(store, "")`, which is empty here — yet `routes.py` line 112
(`if name:`) skips the lookup for the empty value and the whole store comes
back. -/
theorem c1_counterexample :
    list_products [pShirt] ⟨some "", none, none, none⟩ = Except.ok [pShirt] ∧
    find_by_name [pShirt] "" = [] :=
  ⟨rfl, rfl⟩

/-- C1 (amended to non-empty parameter values): filters apply sequentially
in the order name, category, availability, price, each narrowing the
current working set; a non-empty name parameter replaces the base set with
the `find_by_name` lookup result.  The nested narrowing equals filtering
the store by the conjunction of all four predicates over that base, and on
the stored products Shirt/CLOTHS, Pants/CLOTHS, Shirt/FOOD the request
`name=Shirt&category=CLOTHS` returns exactly the record Shirt/CLOTHS. -/
theorem c1_sequential_filters :
    (∀ (store : List Product) (n c a pr : String) (cat : Category) (d : PyDecimal),
      n ≠ "" → c ≠ "" → a ≠ "" → pr ≠ "" →
      Category.fromName? (pyUpper c) = some cat →
      parseDecimal? pr = some d →
      list_products store ⟨some n, some c, some a, some pr⟩ =
        Except.ok ((((find_by_name store n).filter
            (fun p => p.category == cat)).filter
            (fun p => p.available == (pyLower a == "true"))).filter
            (fun p => p.price.numEq d)) ∧
      (((find_by_name store n).filter
            (fun p => p.category == cat)).filter
            (fun p => p.available == (pyLower a == "true"))).filter
            (fun p => p.price.numEq d)
        = store.filter (fun p =>
            ((p.name == n && p.category == cat) &&
              p.available == (pyLower a == "true")) && p.price.numEq d)) ∧
    list_products exampleStore ⟨some "Shirt", some "CLOTHS", none, none⟩ =
      Except.ok [pShirt] := by
  refine ⟨?_, rfl⟩
  intro store n c a pr cat d hn hc ha hpr hcat hparse
  constructor
  · have hname : applyName store (some n) = find_by_name store n :=
      applyName_some (truthyStr_some hn)
    have hcatstep :
        applyCategory (applyName store (some n)) (some c) =
          Except.ok ((find_by_name store n).filter (fun p => p.category == cat)) := by
      rw [hname]
      exact applyCategory_ok (truthyStr_some hc) hcat
    rw [list_products_ok store ⟨some n, some c, some a, some pr⟩ hcatstep,
      applyAvailable_some (truthyStr_some ha)]
    exact applyPrice_ok (truthyStr_some hpr) hparse
  · simp only [find_by_name, List.filter_filter]
    congr 1
    funext q
    cases h1 : (q.name == n) <;> cases h2 : (q.category == cat) <;>
      cases h3 : (q.available == (pyLower a == "true")) <;>
        cases h4 : q.price.numEq d <;> rfl

/-- C1 witness: for the example store, the four filters
`name=Shirt&category=CLOTHS&available=true&price=1` narrow sequentially
from the name lookup. -/
theorem c1_witness :
    list_products exampleStore ⟨some "Shirt", some "CLOTHS", some "true", some "1"⟩ =
      Except.ok ((((find_by_name exampleStore "Shirt").filter
          (fun p => p.category == Category.CLOTHS)).filter
          (fun p => p.available == (pyLower "true" == "true"))).filter
          (fun p => p.price.numEq ⟨1, 0⟩)) :=
  (c1_sequential_filters.1 exampleStore "Shirt" "CLOTHS" "true" "1" Category.CLOTHS
    ⟨1, 0⟩ (by decide) (by decide) (by decide) (by decide) rfl rfl).1

/-- The five required fields of a product payload (spec §4.1). -/
def requiredFields : List String :=
  ["name", "description", "price", "available", "category"]

/-- C6: a mapping missing exactly one of the five required fields is
rejected with a validation error whose message names the missing field —
the field is never silently defaulted. -/
theorem c6_missing_field (es : List (String × JsonVal)) (f : String)
    (hf : f ∈ requiredFields) (hmiss : lookupKey es f = none)
    (hrest : ∀ g ∈ requiredFields, g ≠ f → (lookupKey es g).isSome) :
    deserialize (Body.mapping es) =
      Except.error ("Invalid product: missing " ++ f) := by
  have hsome : ∀ g ∈ requiredFields, g ≠ f → ∃ v, lookupKey es g = some v := by
    intro g hg hne
    exact Option.isSome_iff_exists.mp (hrest g hg hne)
  simp only [requiredFields, List.mem_cons, List.not_mem_nil, or_false] at hf
  rcases hf with rfl | rfl | rfl | rfl | rfl
  · show deserializeMap es = _
    unfold deserializeMap
    simp only [hmiss]
    rfl
  · obtain ⟨v1, h1⟩ := hsome "name" (by simp [requiredFields]) (by decide)
    show deserializeMap es = _
    unfold deserializeMap
    simp only [h1, hmiss]
    rfl
  · obtain ⟨v1, h1⟩ := hsome "name" (by simp [requiredFields]) (by decide)
    obtain ⟨v2, h2⟩ := hsome "description" (by simp [requiredFields]) (by decide)
    show deserializeMap es = _
    unfold deserializeMap
    simp only [h1, h2, hmiss]
    rfl
  · obtain ⟨v1, h1⟩ := hsome "name" (by simp [requiredFields]) (by decide)
    obtain ⟨v2, h2⟩ := hsome "description" (by simp [requiredFields]) (by decide)
    obtain ⟨v3, h3⟩ := hsome "price" (by simp [requiredFields]) (by decide)
    show deserializeMap es = _
    unfold deserializeMap
    simp only [h1, h2, h3, hmiss]
    rfl
  · obtain ⟨v1, h1⟩ := hsome "name" (by simp [requiredFields]) (by decide)
    obtain ⟨v2, h2⟩ := hsome "description" (by simp [requiredFields]) (by decide)
    obtain ⟨v3, h3⟩ := hsome "price" (by simp [requiredFields]) (by decide)
    obtain ⟨v4, h4⟩ := hsome "available" (by simp [requiredFields]) (by decide)
    show deserializeMap es = _
    unfold deserializeMap
    simp only [h1, h2, h3, h4, hmiss]
    rfl

/-- A payload with every required field except `price`. -/
def esNoPrice : List (String × JsonVal) :=
  [("name", JsonVal.str "Test Product"),
   ("description", JsonVal.str "Some description"),
   ("available", JsonVal.bool true),
   ("category", JsonVal.str "CLOTHS")]

/-- C6 witness: the payload missing only `price` is rejected naming
`price`. -/
theorem c6_witness :
    deserialize (Body.mapping esNoPrice) =
      Except.error ("Invalid product: missing " ++ "price") :=
  c6_missing_field esNoPrice "price" (by decide) rfl (by decide)

/-- C7: a mapping whose `available` entry is present but not a genuine
boolean is rejected by deserialization with a validation error — the value
is never coerced — and a POST /products carrying such a JSON body is
answered HTTP 400. -/
theorem c7_available_must_be_bool (es : List (String × JsonVal)) (v : JsonVal)
    (hv : lookupKey es "available" = some v)
    (hnb : ∀ b, v ≠ JsonVal.bool b) :
    (∃ m, deserialize (Body.mapping es) = Except.error m) ∧
    (∀ store : List Product,
      (create_products store (some "application/json") (Body.mapping es)).2.status
        = 400) := by
  have herr : ∃ m, deserialize (Body.mapping es) = Except.error m := by
    show ∃ m, deserializeMap es = Except.error m
    cases h1 : lookupKey es "name" with
    | none =>
      exact ⟨"Invalid product: missing name", by unfold deserializeMap; simp only [h1]⟩
    | some v1 =>
    cases h2 : lookupKey es "description" with
    | none =>
      exact ⟨"Invalid product: missing description", by
        unfold deserializeMap; simp only [h1, h2]⟩
    | some v2 =>
    cases h3 : lookupKey es "price" with
    | none =>
      exact ⟨"Invalid product: missing price", by
        unfold deserializeMap; simp only [h1, h2, h3]⟩
    | some v3 =>
    cases h5 : lookupKey es "category" with
    | none =>
      exact ⟨"Invalid product: missing category", by
        unfold deserializeMap; simp only [h1, h2, h3, hv, h5]⟩
    | some v5 =>
    cases v1 with
    | str nm =>
      cases v2 with
      | str ds =>
        cases hp : priceOf v3 with
        | none =>
          exact ⟨"Invalid product: bad price", by
            unfold deserializeMap; simp only [h1, h2, h3, hv, h5, hp]⟩
        | some pr =>
          cases v with
          | bool b => exact absurd rfl (hnb b)
          | str s =>
            exact ⟨"Invalid type for boolean [available]", by
              unfold deserializeMap; simp only [h1, h2, h3, hv, h5, hp]⟩
          | num dd =>
            exact ⟨"Invalid type for boolean [available]", by
              unfold deserializeMap; simp only [h1, h2, h3, hv, h5, hp]⟩
          | intv nn =>
            exact ⟨"Invalid type for boolean [available]", by
              unfold deserializeMap; simp only [h1, h2, h3, hv, h5, hp]⟩
          | nullv =>
            exact ⟨"Invalid type for boolean [available]", by
              unfold deserializeMap; simp only [h1, h2, h3, hv, h5, hp]⟩
      | num d2 =>
        exact ⟨"Invalid product: bad description", by
          unfold deserializeMap; simp only [h1, h2, h3, hv, h5]⟩
      | bool b2 =>
        exact ⟨"Invalid product: bad description", by
          unfold deserializeMap; simp only [h1, h2, h3, hv, h5]⟩
      | intv n2 =>
        exact ⟨"Invalid product: bad description", by
          unfold deserializeMap; simp only [h1, h2, h3, hv, h5]⟩
      | nullv =>
        exact ⟨"Invalid product: bad description", by
          unfold deserializeMap; simp only [h1, h2, h3, hv, h5]⟩
    | num d1 =>
      exact ⟨"Invalid product: bad name", by
        unfold deserializeMap; simp only [h1, h2, h3, hv, h5]⟩
    | bool b1 =>
      exact ⟨"Invalid product: bad name", by
        unfold deserializeMap; simp only [h1, h2, h3, hv, h5]⟩
    | intv n1 =>
      exact ⟨"Invalid product: bad name", by
        unfold deserializeMap; simp only [h1, h2, h3, hv, h5]⟩
    | nullv =>
      exact ⟨"Invalid product: bad name", by
        unfold deserializeMap; simp only [h1, h2, h3, hv, h5]⟩
  refine ⟨herr, ?_⟩
  intro store
  obtain ⟨m, hm⟩ := herr
  simp [create_products, check_content_type, hm]

/-- A payload whose `available` entry is the string `"true"` rather than a
boolean (as in `test_create_product_bad_available`). -/
def esBadAvail : List (String × JsonVal) :=
  [("name", JsonVal.str "Tool"), ("description", JsonVal.str "d"),
   ("price", JsonVal.str "10.00"), ("available", JsonVal.str "true"),
   ("category", JsonVal.str "TOOLS")]

/-- C7 witness: the POST of the string-`available` payload with the correct
Content-Type is answered 400. -/
theorem c7_witness :
    (create_products [] (some "application/json") (Body.mapping esBadAvail)).2.status
      = 400 :=
  (c7_available_must_be_bool esBadAvail (JsonVal.str "true") rfl
    (by intro b; cases b <;> decide)).2 []

/-- C2: serializing a product record and deserializing the result restores
all five data fields exactly — the decimal price keeps its representation,
so `12.50` survives as `12.50`, not `12.5` — and conversely a canonical
external representation survives deserialize-then-serialize unchanged;
a numeric price entry is taken as the exact decimal it denotes. -/
theorem c2_serialization_roundtrip :
    (∀ p : Product,
      deserialize (Body.mapping p.serialize) =
        Except.ok ⟨none, p.name, p.description, p.price, p.available, p.category⟩) ∧
    (∀ (n ds s cn : String) (b : Bool) (d : PyDecimal) (cat : Category),
      parseDecimal? s = some d → printDec d = s →
      Category.fromName? cn = some cat →
      deserialize (Body.mapping
        [("name", JsonVal.str n), ("description", JsonVal.str ds),
         ("price", JsonVal.str s), ("available", JsonVal.bool b),
         ("category", JsonVal.str cn)]) =
        Except.ok ⟨none, n, ds, d, b, cat⟩ ∧
      Product.serialize ⟨none, n, ds, d, b, cat⟩ =
        [("id", JsonVal.nullv), ("name", JsonVal.str n),
         ("description", JsonVal.str ds), ("price", JsonVal.str s),
         ("available", JsonVal.bool b), ("category", JsonVal.str cn)]) ∧
    (∀ d : PyDecimal, priceOf (JsonVal.num d) = some d) := by
  refine ⟨?_, ?_, fun d => rfl⟩
  · intro p
    have h1 : lookupKey p.serialize "name" = some (JsonVal.str p.name) := rfl
    have h2 : lookupKey p.serialize "description" =
      some (JsonVal.str p.description) := rfl
    have h3 : lookupKey p.serialize "price" =
      some (JsonVal.str (printDec p.price)) := rfl
    have h4 : lookupKey p.serialize "available" =
      some (JsonVal.bool p.available) := rfl
    have h5 : lookupKey p.serialize "category" =
      some (JsonVal.str (Category.name p.category)) := rfl
    have hp : parseDecimal? (printDec p.price) = some p.price :=
      parse_printDec p.price
    show deserializeMap p.serialize = _
    unfold deserializeMap
    simp only [h1, h2, h3, h4, h5, priceOf, hp, Category.fromName_name]
  · intro n ds s cn b d cat hparse hprint hcat
    constructor
    · have h1 : lookupKey
        [("name", JsonVal.str n), ("description", JsonVal.str ds),
         ("price", JsonVal.str s), ("available", JsonVal.bool b),
         ("category", JsonVal.str cn)] "name" = some (JsonVal.str n) := rfl
      have h3 : lookupKey
        [("name", JsonVal.str n), ("description", JsonVal.str ds),
         ("price", JsonVal.str s), ("available", JsonVal.bool b),
         ("category", JsonVal.str cn)] "price" = some (JsonVal.str s) := rfl
      have h2 : lookupKey
        [("name", JsonVal.str n), ("description", JsonVal.str ds),
         ("price", JsonVal.str s), ("available", JsonVal.bool b),
         ("category", JsonVal.str cn)] "description" = some (JsonVal.str ds) := rfl
      have h4 : lookupKey
        [("name", JsonVal.str n), ("description", JsonVal.str ds),
         ("price", JsonVal.str s), ("available", JsonVal.bool b),
         ("category", JsonVal.str cn)] "available" = some (JsonVal.bool b) := rfl
      have h5 : lookupKey
        [("name", JsonVal.str n), ("description", JsonVal.str ds),
         ("price", JsonVal.str s), ("available", JsonVal.bool b),
         ("category", JsonVal.str cn)] "category" = some (JsonVal.str cn) := rfl
      show deserializeMap
        [("name", JsonVal.str n), ("description", JsonVal.str ds),
         ("price", JsonVal.str s), ("available", JsonVal.bool b),
         ("category", JsonVal.str cn)] = Except.ok ⟨none, n, ds, d, b, cat⟩
      unfold deserializeMap
      simp only [h1, h2, h3, h4, h5, priceOf, hparse, hcat]
    · simp only [Product.serialize]
      rw [hprint, Category.name_of_fromName hcat]

/-- C2 witness: the price `12.50` round-trips exactly — coefficient 1250 at
scale 2, not `12.5` — through deserialize and serialize. -/
theorem c2_witness :
    deserialize (Body.mapping
      [("name", JsonVal.str "Fedora"), ("description", JsonVal.str "A red hat"),
       ("price", JsonVal.str "12.50"), ("available", JsonVal.bool true),
       ("category", JsonVal.str "CLOTHS")]) =
      Except.ok ⟨none, "Fedora", "A red hat", ⟨1250, 2⟩, true, Category.CLOTHS⟩ ∧
    Product.serialize ⟨none, "Fedora", "A red hat", ⟨1250, 2⟩, true, Category.CLOTHS⟩ =
      [("id", JsonVal.nullv), ("name", JsonVal.str "Fedora"),
       ("description", JsonVal.str "A red hat"), ("price", JsonVal.str "12.50"),
       ("available", JsonVal.bool true), ("category", JsonVal.str "CLOTHS")] :=
  c2_serialization_roundtrip.2.1 "Fedora" "A red hat" "12.50" "CLOTHS" true
    ⟨1250, 2⟩ Category.CLOTHS rfl rfl rfl

end ProductStore
